import Mathlib

set_option maxRecDepth 100000

/-!
Shallow embedding of the Pathfinder demo app (PathfinderApp/App.js).

The app is a single React component.  Its behaviour relevant to the
specification is captured by:
  - an application state (current mode, displayed message, processing flag,
    camera readiness);
  - an event trace recording the externally visible side effects
    (speech cancellation, speech output, camera capture, backend call,
    writes to the processing flag);
  - pure Lean functions mirroring the JS handlers: updateMessage, speak,
    getPromptForMode, handleRemoteCommand, processImage (split into its
    synchronous entry and its asynchronous continuation so that the Stop
    button can be interleaved with an in-flight backend call), the Stop
    button handler, the capture button (with its disabled guard) and the
    three local mode buttons.

React state setters (setCurrentMode, setMessage, setIsProcessing) are
modelled as functional record updates performed at the program point where
the setter is called; reads of state inside a handler read the state passed
to the handler.  Machine integers, floating point and layout are not
involved in any claim.
-/

/-- One text part of a candidate in the Gemini response
(result.candidates[i].content.parts[j]).  The code never tests the text
field for presence, so it is modelled as a plain string. -/
structure RespPart where
  text : String
  deriving Repr, DecidableEq

/-- The content object of a candidate.  The code tests the parts field for
truthiness, so it is an Option. -/
structure RespContent where
  parts : Option (List RespPart)
  deriving Repr, DecidableEq

/-- One candidate of the Gemini response.  The code tests the content field
for truthiness, so it is an Option. -/
structure RespCandidate where
  content : Option RespContent
  deriving Repr, DecidableEq

/-- The structured result parsed from the backend response body.  The code
tests the candidates field for truthiness, so it is an Option. -/
structure GenResponse where
  candidates : Option (List RespCandidate)
  deriving Repr, DecidableEq

/-- The component state of App.js that the specified behaviour touches:
currentMode, message, isProcessing, cameraReady, and presence of the
camera ref (cameraRef.current). -/
structure AppState where
  currentMode : String
  message : String
  isProcessing : Bool
  cameraReady : Bool
  cameraRefPresent : Bool
  deriving Repr, DecidableEq

/-- Externally visible side effects, in program order. -/
inductive Event where
  | speechStop : Event
  | speechSpeak : String → Event
  | cameraCapture : Event
  | backendCall : String → Event
  | setProcessing : Bool → Event
  deriving Repr, DecidableEq

/-- The speak helper of App.js: Speech.stop() followed by
Speech.speak(text). -/
def speak (text : String) : List Event :=
  [Event.speechStop, Event.speechSpeak text]

/-- updateMessage(msg, shouldSpeak): setMessage(msg), and speak(msg) when
shouldSpeak is true. -/
def updateMessage (msg : String) (shouldSpeak : Bool) (s : AppState) :
    AppState × List Event :=
  ({ s with message := msg }, if shouldSpeak then speak msg else [])

/-- getPromptForMode from App.js, verbatim.  In the source the case for
the passive mode and the default case share one body (fallthrough). -/
def getPromptForMode (mode : String) : String :=
  match mode with
  | "read" => "Extract all readable text from this image. No extra commentary or explanation. Prioritize the most important text."
  | "navigate" => "Describe the immediate environment for indoor navigation. Identify key objects, obstacles, pathways, and directional cues. Mention any furniture, doors, stairs, changes in floor level, or other significant features. Provide guidance on what's directly in front, to the left, and to the right. Highlight potential hazards or clear paths."
  | _ => "Describe the scene briefly. Focus on elements that would be helpful for a visually impaired person to navigate or understand their surroundings. For example, if there's text, read it out. If there are obstacles, describe them. Be concise but informative."

/-- The fixed soft-failure fallback message of processImage. -/
def fallbackDescription : String :=
  "No clear description was generated. Please try again."

/-- The message shown while a run is in flight. -/
def analyzingMessage : String := "Analyzing image, please wait..."

/-- The message reported when the camera is not ready. -/
def notReadyMessage : String := "Camera not ready. Please wait or refresh the app."

/-- The hard-failure message built in the catch block of processImage from
the thrown error's message. -/
def failureMessage (errMsg : String) : String :=
  "Failed to get description: " ++ errMsg ++ ". Please try again."

/-- Extraction of the description from the structured result, mirroring the
conjunctive guard of App.js: result.candidates is present and non-empty,
the first candidate's content is present, its parts list is present and
non-empty; then the first part's text, else the fixed fallback.  (The
initial value of the description variable in the source is dead: both
branches overwrite it.) -/
def descriptionOf (result : GenResponse) : String :=
  match result.candidates with
  | some (c :: _) =>
    match c.content with
    | some content =>
      match content.parts with
      | some (p :: _) => p.text
      | _ => fallbackDescription
    | none => fallbackDescription
  | _ => fallbackDescription

/-- JS String.prototype.toLowerCase, restricted to basic latin letters as
in the command tokens, written structurally over the character list so
that it computes by kernel reduction. -/
def toLowerCase (s : String) : String :=
  String.mk (s.data.map Char.toLower)

/-- handleRemoteCommand from App.js: switch on command.toLowerCase() over
the fixed vocabulary, with a default that echoes the received token. -/
def handleRemoteCommand (s : AppState) (command : String) :
    AppState × List Event :=
  match toLowerCase command with
  | "speak" => (s, speak "Hello from remote device!")
  | "status" => (s, speak ("Current mode is " ++ s.currentMode))
  | "read" => ({ s with currentMode := "read" }, speak "Mode set to read")
  | "navigate" => ({ s with currentMode := "navigate" }, speak "Mode set to navigate")
  | "passive" => ({ s with currentMode := "passive" }, speak "Mode set to passive")
  | _ => (s, speak ("Received command: " ++ command))

/-- Outcome of the awaited takePictureAsync call: either a photo with a
base64 payload, or a thrown error carrying its message. -/
inductive CaptureResult where
  | photo : String → CaptureResult
  | captureThrow : String → CaptureResult
  deriving Repr, DecidableEq

/-- Outcome of the awaited fetch plus response.json(): either a parsed
structured result, or a thrown transport or parse error carrying its
message. -/
inductive BackendResult where
  | resolved : GenResponse → BackendResult
  | rejected : String → BackendResult
  deriving Repr, DecidableEq

/-- The synchronous entry of processImage after the readiness guard:
setIsProcessing(true); updateMessage(analyzing, false); Speech.stop(). -/
def processImageEntry (s : AppState) : AppState × List Event :=
  let s1 := { s with isProcessing := true }
  let r2 := updateMessage analyzingMessage false s1
  (r2.1, Event.setProcessing true :: r2.2 ++ [Event.speechStop])

/-- The catch and finally blocks of processImage: report the failure
message (spoken) and clear the processing flag. -/
def processImageCatch (errMsg : String) (s : AppState) : AppState × List Event :=
  let r1 := updateMessage (failureMessage errMsg) true s
  ({ r1.1 with isProcessing := false }, r1.2 ++ [Event.setProcessing false])

/-- The continuation of processImage once the backend call settles: on a
parsed result, speak its description; on a thrown error, run the catch
block; in both cases the finally block clears the processing flag. -/
def processImageResume (backend : BackendResult) (s : AppState) :
    AppState × List Event :=
  match backend with
  | BackendResult.resolved r =>
    let r1 := updateMessage (descriptionOf r) true s
    ({ r1.1 with isProcessing := false }, r1.2 ++ [Event.setProcessing false])
  | BackendResult.rejected m => processImageCatch m s

/-- One whole sequential run of processImage, parameterised by the outcomes
of the two awaited operations.  The readiness guard returns early, before
the processing flag is set and before any capture or backend call.  On the
success path the backend is called with the prompt for the mode current at
the start of the run. -/
def processImage (s : AppState) (cap : CaptureResult) (backend : BackendResult) :
    AppState × List Event :=
  if !s.cameraReady || !s.cameraRefPresent then
    updateMessage notReadyMessage true s
  else
    let r1 := processImageEntry s
    match cap with
    | CaptureResult.captureThrow m =>
      let r2 := processImageCatch m r1.1
      (r2.1, r1.2 ++ [Event.cameraCapture] ++ r2.2)
    | CaptureResult.photo _ =>
      let r2 := processImageResume backend r1.1
      (r2.1, r1.2 ++ [Event.cameraCapture,
        Event.backendCall (getPromptForMode s.currentMode)] ++ r2.2)

/-- The Stop button handler: Speech.stop(); setIsProcessing(false);
updateMessage(stopped, true). -/
def stopButton (s : AppState) : AppState × List Event :=
  let s1 := { s with isProcessing := false }
  let r2 := updateMessage "Stopped all operations" true s1
  (r2.1, Event.speechStop :: Event.setProcessing false :: r2.2)

/-- The disabled condition of the capture button.  The source also disables
the button when the Camera or Speech modules failed to load; the embedding
assumes both modules are loaded. -/
def captureButtonDisabled (s : AppState) : Bool :=
  !s.cameraReady || s.isProcessing

/-- Pressing the capture button: a disabled button fires no handler, an
enabled one runs processImage. -/
def pressCaptureButton (s : AppState) (cap : CaptureResult)
    (backend : BackendResult) : AppState × List Event :=
  if captureButtonDisabled s then (s, []) else processImage s cap backend

/-- The local Read mode button: setCurrentMode; updateMessage(spoken). -/
def readModeButton (s : AppState) : AppState × List Event :=
  updateMessage "Mode set to Read. Tap \"Read Document\" to scan text." true
    { s with currentMode := "read" }

/-- The local Navigate mode button: setCurrentMode; updateMessage(spoken). -/
def navigateModeButton (s : AppState) : AppState × List Event :=
  updateMessage "Mode set to Navigate. Tap \"Get Navigation Cues\" for indoor guidance." true
    { s with currentMode := "navigate" }

/-- The local Passive mode button: setCurrentMode; updateMessage(spoken). -/
def passiveModeButton (s : AppState) : AppState × List Event :=
  updateMessage "Mode set to Passive. Tap \"Describe Environment\" for general descriptions." true
    { s with currentMode := "passive" }

/-- The texts handed to Speech.speak, in order, within a trace. -/
def spokenTexts (ev : List Event) : List String :=
  ev.filterMap fun e =>
    match e with
    | Event.speechSpeak t => some t
    | _ => none

/-- Whether an event clears the processing flag. -/
def isClearProcessing : Event → Bool
  | Event.setProcessing false => true
  | _ => false

/-- How many times a trace clears the processing flag. -/
def clearProcessingCount (ev : List Event) : Nat :=
  (ev.filter isClearProcessing).length

/-- Substring test on lists of characters. -/
def listHasSub (needle hay : List Char) : Bool :=
  match hay with
  | [] => needle.isEmpty
  | _ :: tl => needle.isPrefixOf hay || listHasSub needle tl

/-- Substring test on strings. -/
def mentionsText (hay needle : String) : Bool :=
  listHasSub needle.toList hay.toList

/-- A ready idle state used to instantiate universally quantified
theorems at a concrete input. -/
def s0 : AppState :=
  { currentMode := "passive", message := "ready", isProcessing := false,
    cameraReady := true, cameraRefPresent := true }

/-- s0 with the processing flag set. -/
def s0busy : AppState := { s0 with isProcessing := true }

/-- s0 with the camera not ready. -/
def s0notReady : AppState := { s0 with cameraReady := false }

/-- A response with one candidate carrying one non-empty text part. -/
def staleResponse : GenResponse :=
  { candidates := some [{ content := some { parts := some [{ text := "A hallway with stairs ahead" }] } }] }

/-- A response with one candidate whose only text part is empty. -/
def emptyTextResponse : GenResponse :=
  { candidates := some [{ content := some { parts := some [{ text := "" }] } }] }

/-- A response whose candidate list is empty. -/
def noCandidateResponse : GenResponse := { candidates := some [] }

/-- A response with one candidate whose text is the exit-sign example. -/
def exitSignResponse : GenResponse :=
  { candidates := some [{ content := some { parts := some [{ text := "Exit sign ahead" }] } }] }

/-- C9: getPromptForMode is pure and deterministic by construction and, as
stated here, total with a non-empty instruction string for every mode; the
fixed text per mode asks for verbatim text extraction with no commentary
(read), obstacle, pathway, door and stair identification with left, front
and right framing (navigate), and a concise navigation-relevant scene
summary (passive). -/
theorem c9_prompt_resolver :
    (∀ m : String, getPromptForMode m ≠ "")
    ∧ mentionsText (getPromptForMode "read") "Extract all readable text" = true
    ∧ mentionsText (getPromptForMode "read") "No extra commentary" = true
    ∧ mentionsText (getPromptForMode "navigate") "obstacles" = true
    ∧ mentionsText (getPromptForMode "navigate") "pathways" = true
    ∧ mentionsText (getPromptForMode "navigate") "doors" = true
    ∧ mentionsText (getPromptForMode "navigate") "stairs" = true
    ∧ mentionsText (getPromptForMode "navigate") "in front" = true
    ∧ mentionsText (getPromptForMode "navigate") "to the left" = true
    ∧ mentionsText (getPromptForMode "navigate") "to the right" = true
    ∧ mentionsText (getPromptForMode "passive") "Describe the scene briefly" = true
    ∧ mentionsText (getPromptForMode "passive") "concise" = true
    ∧ mentionsText (getPromptForMode "passive") "navigate" = true := by
  refine ⟨fun m => ?_, ?_, ?_, ?_, ?_, ?_, ?_, ?_, ?_, ?_, ?_, ?_, ?_⟩
  · unfold getPromptForMode
    split <;> decide
  all_goals decide

/-- C8: the remote command interpreter matches tokens case-insensitively
and is total: STATUS, status and Status all produce the same effect; every
token whose lower-casing lies outside the fixed vocabulary produces an
echo effect speaking back the received token; and every invocation speaks
exactly one utterance rather than raising an error. -/
theorem c8_interpreter_case_insensitive_total (s : AppState) (cmd : String) :
    (handleRemoteCommand s "STATUS" = handleRemoteCommand s "status"
      ∧ handleRemoteCommand s "Status" = handleRemoteCommand s "status")
    ∧ (toLowerCase cmd ∉ (["speak", "status", "read", "navigate", "passive"] : List String) →
        handleRemoteCommand s cmd = (s, speak ("Received command: " ++ cmd)))
    ∧ ∃ t : String, spokenTexts (handleRemoteCommand s cmd).2 = [t] := by
  refine ⟨⟨rfl, rfl⟩, fun h => ?_, ?_⟩
  · unfold handleRemoteCommand
    split <;> simp_all
  · unfold handleRemoteCommand
    split <;> exact ⟨_, rfl⟩

/-- Witness for C8: the token banana is outside the vocabulary and is
echoed back. -/
theorem c8_witness :
    toLowerCase "banana" ∉ (["speak", "status", "read", "navigate", "passive"] : List String)
    ∧ handleRemoteCommand s0 "banana" = (s0, speak ("Received command: " ++ "banana")) :=
  ⟨by decide, (c8_interpreter_case_insensitive_total s0 "banana").2.1 (by decide)⟩

/-- C4: for every starting state, interpreting navigate and then
immediately interpreting status announces mode navigate: status reads the
mode current at interpretation time. -/
theorem c4_status_reads_current_mode (s : AppState) :
    (handleRemoteCommand s "navigate").1.currentMode = "navigate"
    ∧ (handleRemoteCommand (handleRemoteCommand s "navigate").1 "status").2
        = speak "Current mode is navigate" :=
  ⟨rfl, rfl⟩

/-- C10: handling any remote command token leaves the displayed message
(and the processing and camera flags) unchanged, mutating at most the
current mode, whereas each local mode button updates both the mode and the
displayed message. -/
theorem c10_remote_commands_leave_message (s : AppState) (cmd : String) :
    ((handleRemoteCommand s cmd).1.message = s.message
      ∧ (handleRemoteCommand s cmd).1.isProcessing = s.isProcessing
      ∧ (handleRemoteCommand s cmd).1.cameraReady = s.cameraReady
      ∧ (handleRemoteCommand s cmd).1.cameraRefPresent = s.cameraRefPresent)
    ∧ ((readModeButton s).1.currentMode = "read"
      ∧ (readModeButton s).1.message = "Mode set to Read. Tap \"Read Document\" to scan text.")
    ∧ ((navigateModeButton s).1.currentMode = "navigate"
      ∧ (navigateModeButton s).1.message = "Mode set to Navigate. Tap \"Get Navigation Cues\" for indoor guidance.")
    ∧ ((passiveModeButton s).1.currentMode = "passive"
      ∧ (passiveModeButton s).1.message = "Mode set to Passive. Tap \"Describe Environment\" for general descriptions.") := by
  refine ⟨?_, ⟨rfl, rfl⟩, ⟨rfl, rfl⟩, ⟨rfl, rfl⟩⟩
  unfold handleRemoteCommand
  split <;> exact ⟨rfl, rfl, rfl, rfl⟩

/-- C2: pressing the capture button while the processing flag is true is a
no-op: the state is unchanged and the trace is empty, so no image is
captured and no backend call is made; the press is rejected, not queued. -/
theorem c2_no_reentrancy (s : AppState) (cap : CaptureResult)
    (backend : BackendResult) (h : s.isProcessing = true) :
    pressCaptureButton s cap backend = (s, []) := by
  simp [pressCaptureButton, captureButtonDisabled, h]

/-- Witness for C2 at a concrete busy state. -/
theorem c2_witness :
    s0busy.isProcessing = true
    ∧ pressCaptureButton s0busy (CaptureResult.photo "p") (BackendResult.rejected "err")
        = (s0busy, []) :=
  ⟨rfl, c2_no_reentrancy s0busy (CaptureResult.photo "p") (BackendResult.rejected "err") rfl⟩

/-- C5: every pipeline run that passes the readiness guard, whatever the
outcome of the capture and of the backend call (success, soft failure via
the fallback, capture exception or transport or parse exception), speaks
exactly one utterance, clears the processing flag exactly once, and ends
with the processing flag false. -/
theorem c5_one_utterance_one_clear (s : AppState) (cap : CaptureResult)
    (backend : BackendResult) (hReady : s.cameraReady = true)
    (hRef : s.cameraRefPresent = true) :
    (spokenTexts (processImage s cap backend).2).length = 1
    ∧ clearProcessingCount (processImage s cap backend).2 = 1
    ∧ (processImage s cap backend).1.isProcessing = false := by
  cases cap <;> cases backend <;>
    simp [processImage, hReady, hRef, processImageEntry, processImageResume,
      processImageCatch, updateMessage, speak, spokenTexts,
      clearProcessingCount, isClearProcessing]

/-- Witness for C5 at a concrete ready state, with a capture exception. -/
theorem c5_witness :
    s0.cameraReady = true
    ∧ (spokenTexts (processImage s0 (CaptureResult.captureThrow "boom")
        (BackendResult.rejected "x")).2).length = 1 :=
  ⟨rfl, (c5_one_utterance_one_clear s0 (CaptureResult.captureThrow "boom")
    (BackendResult.rejected "x") rfl rfl).1⟩

/-- C6: on a transport or parse error the pipeline reports a single
failure message that incorporates the underlying error detail, and returns
to idle with the processing flag false, leaving the capture button enabled
for an immediate retry. -/
theorem c6_transport_error_reported (s : AppState) (b m : String)
    (hReady : s.cameraReady = true) (hRef : s.cameraRefPresent = true) :
    (processImage s (CaptureResult.photo b) (BackendResult.rejected m)).1.message
      = failureMessage m
    ∧ spokenTexts (processImage s (CaptureResult.photo b) (BackendResult.rejected m)).2
      = [failureMessage m]
    ∧ (∃ u v : String, failureMessage m = u ++ m ++ v)
    ∧ (processImage s (CaptureResult.photo b) (BackendResult.rejected m)).1.isProcessing = false
    ∧ captureButtonDisabled
        (processImage s (CaptureResult.photo b) (BackendResult.rejected m)).1 = false := by
  refine ⟨?_, ?_, ⟨"Failed to get description: ", ". Please try again.", rfl⟩, ?_, ?_⟩ <;>
    simp [processImage, hReady, hRef, processImageEntry, processImageResume,
      processImageCatch, updateMessage, speak, spokenTexts, captureButtonDisabled]

/-- Witness for C6 at a concrete ready state and error message. -/
theorem c6_witness :
    s0.cameraReady = true
    ∧ (processImage s0 (CaptureResult.photo "p")
        (BackendResult.rejected "network error")).1.message
      = failureMessage "network error" :=
  ⟨rfl, (c6_transport_error_reported s0 "p" "network error" rfl rfl).1⟩

/-- C7: a failure at or before the capture step never reaches the network
step.  If the camera is not ready the pipeline makes no backend call,
captures no image, and reports the not-ready message (which contains the
words not ready); if the capture operation throws, the pipeline makes no
backend call and goes directly to the spoken failure message with the
processing flag cleared. -/
theorem c7_capture_failure_no_backend (s t : AppState) (cap : CaptureResult)
    (backend : BackendResult) (em : String) :
    (s.cameraReady = false →
      (∀ p : String, Event.backendCall p ∉ (processImage s cap backend).2)
      ∧ Event.cameraCapture ∉ (processImage s cap backend).2
      ∧ (processImage s cap backend).1.message = notReadyMessage
      ∧ (∃ u v : String, notReadyMessage = u ++ "not ready" ++ v))
    ∧ (t.cameraReady = true → t.cameraRefPresent = true →
      (∀ p : String,
        Event.backendCall p ∉ (processImage t (CaptureResult.captureThrow em) backend).2)
      ∧ (processImage t (CaptureResult.captureThrow em) backend).1.message
          = failureMessage em
      ∧ spokenTexts (processImage t (CaptureResult.captureThrow em) backend).2
          = [failureMessage em]
      ∧ (processImage t (CaptureResult.captureThrow em) backend).1.isProcessing = false) := by
  constructor
  · intro h
    refine ⟨?_, ?_, ?_, ⟨"Camera ", ". Please wait or refresh the app.", rfl⟩⟩ <;>
      simp [processImage, h, updateMessage, speak]
  · intro hReady hRef
    refine ⟨?_, ?_, ?_, ?_⟩ <;>
      simp [processImage, hReady, hRef, processImageEntry, processImageCatch,
        updateMessage, speak, spokenTexts]

/-- Witness for C7: a concrete not-ready state reports the not-ready
message, and a concrete capture exception ends with processing false. -/
theorem c7_witness :
    s0notReady.cameraReady = false
    ∧ (processImage s0notReady (CaptureResult.photo "p")
        (BackendResult.rejected "x")).1.message = notReadyMessage
    ∧ (processImage s0 (CaptureResult.captureThrow "boom")
        (BackendResult.rejected "x")).1.isProcessing = false :=
  ⟨rfl,
    ((c7_capture_failure_no_backend s0notReady s0 (CaptureResult.photo "p")
      (BackendResult.rejected "x") "boom").1 rfl).2.2.1,
    ((c7_capture_failure_no_backend s0notReady s0 (CaptureResult.photo "p")
      (BackendResult.rejected "x") "boom").2 rfl rfl).2.2.2⟩

/-- C1 counterexample: press Stop while the backend call of a run started
from the ready idle state is in flight; when the call later resolves, the
continuation of processImage does speak the stale description, contrary to
the claim that the stale description is not spoken. -/
theorem c1_counterexample :
    "A hallway with stairs ahead" ∈ spokenTexts
      (processImageResume (BackendResult.resolved staleResponse)
        (stopButton (processImageEntry s0).1).1).2 := by decide

/-- C1 amended: invoking Stop while a run awaits the backend result
cancels current speech and clears the processing flag, and a later
resolution or rejection of the in-flight call does not set the processing
flag back to true; the stale description is, however, spoken when the call
resolves. -/
theorem c1_amended_stop_clears (s : AppState) (r : GenResponse) (m : String) :
    Event.speechStop ∈ (stopButton (processImageEntry s).1).2
    ∧ (stopButton (processImageEntry s).1).1.isProcessing = false
    ∧ (processImageResume (BackendResult.resolved r)
        (stopButton (processImageEntry s).1).1).1.isProcessing = false
    ∧ (processImageResume (BackendResult.rejected m)
        (stopButton (processImageEntry s).1).1).1.isProcessing = false
    ∧ descriptionOf r ∈ spokenTexts (processImageResume (BackendResult.resolved r)
        (stopButton (processImageEntry s).1).1).2 := by
  refine ⟨?_, rfl, rfl, rfl, ?_⟩ <;>
    simp [stopButton, processImageEntry, processImageResume, processImageCatch,
      updateMessage, speak, spokenTexts]

/-- C3 counterexample: a response with one candidate whose only text part
is the empty string has no non-empty candidate text, yet the pipeline
speaks the empty string rather than the fixed fallback message. -/
theorem c3_counterexample :
    spokenTexts (processImage s0 (CaptureResult.photo "p")
        (BackendResult.resolved emptyTextResponse)).2 = [""]
    ∧ ("" : String) ≠ fallbackDescription := by decide

/-- C3 amended: for every backend response, the spoken description is the
text of the first part of the first candidate whenever the candidate list
is non-empty and the first candidate carries a non-empty parts list (even
when that text is the empty string); otherwise, including the
zero-candidate case, the fixed fallback message is reported rather than a
thrown error or hard failure. -/
theorem c3_amended_description_selection (s : AppState) (b : String)
    (r : GenResponse) (hReady : s.cameraReady = true)
    (hRef : s.cameraRefPresent = true) :
    spokenTexts (processImage s (CaptureResult.photo b)
        (BackendResult.resolved r)).2 = [descriptionOf r]
    ∧ (∀ c cs ct p ps, r.candidates = some (c :: cs) → c.content = some ct →
        ct.parts = some (p :: ps) → descriptionOf r = p.text)
    ∧ (r.candidates = some [] → descriptionOf r = fallbackDescription)
    ∧ (r.candidates = none → descriptionOf r = fallbackDescription)
    ∧ (descriptionOf r = fallbackDescription ∨ ∃ c cs ct p ps,
        r.candidates = some (c :: cs) ∧ c.content = some ct ∧
        ct.parts = some (p :: ps) ∧ descriptionOf r = p.text) := by
  refine ⟨?_, ?_, ?_, ?_, ?_⟩
  · simp [processImage, hReady, hRef, processImageEntry, processImageResume,
      updateMessage, speak, spokenTexts]
  · intro c cs ct p ps h1 h2 h3
    simp [descriptionOf, h1, h2, h3]
  · intro h
    simp [descriptionOf, h]
  · intro h
    simp [descriptionOf, h]
  · cases hc : r.candidates with
    | none => exact Or.inl (by simp [descriptionOf, hc])
    | some cs =>
      cases cs with
      | nil => exact Or.inl (by simp [descriptionOf, hc])
      | cons c cs =>
        cases hct : c.content with
        | none => exact Or.inl (by simp [descriptionOf, hc, hct])
        | some ct =>
          cases hp : ct.parts with
          | none => exact Or.inl (by simp [descriptionOf, hc, hct, hp])
          | some ps =>
            cases ps with
            | nil => exact Or.inl (by simp [descriptionOf, hc, hct, hp])
            | cons p ps =>
              exact Or.inr ⟨c, cs, ct, p, ps, rfl, hct, hp,
                by simp [descriptionOf, hc, hct, hp]⟩

/-- Witness for C3 amended: the exit-sign response is spoken verbatim. -/
theorem c3_witness :
    s0.cameraReady = true
    ∧ spokenTexts (processImage s0 (CaptureResult.photo "p")
        (BackendResult.resolved exitSignResponse)).2 = [descriptionOf exitSignResponse] :=
  ⟨rfl, (c3_amended_description_selection s0 "p" exitSignResponse rfl rfl).1⟩
